import Mathlib

set_option maxHeartbeats 1000000

namespace SdpCryptoModel

/-- One step of C string splitting as done by strsep with a one-character
delimiter set: scan `s` for the first occurrence of `d`; return the part
before it together with the remainder after it when `d` occurs, and the
whole list together with `none` (the NULL pointer) otherwise. -/
def splitAtChar : List Char → Char → List Char × Option (List Char)
  | [], _ => ([], none)
  | c :: cs, d =>
    if c = d then ([], some cs)
    else
      let r := splitAtChar cs d
      (c :: r.1, r.2)

/-- C strsep applied to a possibly-NULL string pointer: the token returned
(NULL exactly when the input pointer is NULL) and the advanced pointer. -/
def strsep : Option (List Char) → Char → Option (List Char) × Option (List Char)
  | none, _ => (none, none)
  | some s, d =>
    let r := splitAtChar s d
    (some r.1, r.2)

/-- C isspace over the characters atoi skips. -/
def isSpaceC (c : Char) : Bool :=
  c = ' ' || c = '\t' || c = '\n' || c = '\x0b' || c = '\x0c' || c = '\r'

/-- Accumulate leading decimal digits, as the digit loop of C atoi does. -/
def digitsVal : List Char → Nat → Nat
  | [], acc => acc
  | c :: cs, acc =>
    if '0' ≤ c ∧ c ≤ '9' then digitsVal cs (acc * 10 + (c.toNat - 48))
    else acc

/-- C atoi: skip whitespace, read an optional sign, then leading digits;
yields 0 when no digits are present. -/
def atoi (s : List Char) : Int :=
  match s.dropWhile isSpaceC with
  | '-' :: rest => -(digitsVal rest 0 : Int)
  | '+' :: rest => (digitsVal rest 0 : Int)
  | s1 => (digitsVal s1 0 : Int)

/-- Conversion of a C int value to the 32-bit unsigned bit pattern it is
stored as in an unsigned int variable. -/
def c_uint (i : Int) : Nat := (i % ((2 : Int) ^ 32)).toNat

/-- Lines 290-302 of sdp_crypto.c: the numeric lifetime computed from the
lifetime field of a key parameter.  When the field starts with the two
characters 2 and caret, the code evaluates the C expression 2 ^ atoi(rest),
whose caret operator is bitwise XOR; otherwise atoi of the whole field.
The result is stored in the unsigned int sdeslifetime. -/
def lifetimeValue (lt : List Char) : Nat :=
  if 2 < lt.length then
    match lt with
    | '2' :: '^' :: rest => Nat.xor (c_uint 2) (c_uint (atoi rest))
    | _ => c_uint (atoi lt)
  else c_uint (atoi lt)

/-- The crypto suite name accepted at line 256 of sdp_crypto.c. -/
def suiteName80 : List Char := "AES_CM_128_HMAC_SHA1_80".toList

/-- The crypto suite name accepted at line 258 of sdp_crypto.c. -/
def suiteName32 : List Char := "AES_CM_128_HMAC_SHA1_32".toList

/-- Outcome of handling one semicolon-separated key parameter inside the
loop of sdp_crypto_process (lines 266-309 of sdp_crypto.c). -/
inductive EntryOut
  | nullDeref
  | found (keySalt : List Char)
  | skipLifetime (value : Nat)
  | notInline
deriving DecidableEq

/-- Lines 267-308 of sdp_crypto.c: one iteration of the key-parameter loop.
The token is split at the first colon into method and info; for an inline
method the info is split on the pipe character into key salt and a second
field that is MKI when it contains a colon (then there is no lifetime and
the candidate is accepted) and a lifetime otherwise (the candidate is
skipped after its numeric value is computed for the log).  When the info or
the second field is absent the C code passes the NULL lifetime pointer to
strchr, which is a null dereference. -/
def processEntry (tok : List Char) : EntryOut :=
  let m := strsep (some tok) ':'
  let info := (strsep m.2 ';').1
  if m.1 = some ("inline".toList) then
    match info with
    | none => EntryOut.nullDeref
    | some i =>
      let ks := splitAtChar i '|'
      match ks.2 with
      | none => EntryOut.nullDeref
      | some i2 =>
        let lt := splitAtChar i2 '|'
        if ':' ∈ lt.1 then EntryOut.found ks.1
        else EntryOut.skipLifetime (lifetimeValue lt.1)
  else EntryOut.notInline

/-- Outcome of the whole key-parameter loop of sdp_crypto_process. -/
inductive LoopOut
  | nullDeref
  | found (keySalt : List Char)
  | noneFound
deriving DecidableEq

/-- Termination measure for the key-parameter loop: remaining characters of
the key-params pointer, or 0 for the NULL pointer. -/
def kpMeasure : Option (List Char) → Nat
  | none => 0
  | some s => s.length + 1

theorem splitAtChar_snd_length {s r : List Char} {d : Char}
    (h : (splitAtChar s d).2 = some r) : r.length < s.length := by
  induction s with
  | nil => simp [splitAtChar] at h
  | cons c cs ih =>
    by_cases hc : c = d
    · simp [splitAtChar, hc] at h
      subst h
      simp
    · simp only [splitAtChar, hc, if_false] at h
      exact Nat.lt_trans (ih h) (Nat.lt_succ_self _)

/-- Lines 266-309 of sdp_crypto.c: the while loop over semicolon-separated
key parameters.  The loop exits with no candidate when the key-params
pointer is NULL; otherwise strsep yields a token (never NULL for a non-NULL
pointer) that is handled by processEntry, and the loop continues on skipped
or non-inline entries. -/
def cryptoLoop (kp : Option (List Char)) : LoopOut :=
  match kp with
  | none => LoopOut.noneFound
  | some s =>
    let r := splitAtChar s ';'
    match processEntry r.1 with
    | EntryOut.nullDeref => LoopOut.nullDeref
    | EntryOut.found ks => LoopOut.found ks
    | EntryOut.skipLifetime _ => cryptoLoop r.2
    | EntryOut.notInline => cryptoLoop r.2
termination_by kpMeasure kp
decreasing_by
  all_goals
    simp only [kpMeasure]
    split
    · exact Nat.succ_pos _
    · rename_i r' h
      exact Nat.succ_lt_succ (splitAtChar_snd_length h)

/-- The two suite values of the enum used at lines 257 and 259 of
sdp_crypto.c. -/
inductive SuiteVal
  | aesCm128HmacSha1_80
  | aesCm128HmacSha1_32
deriving DecidableEq

/-- The external collaborators of sdp_crypto.c: the process-wide engine
registration flag read by ast_rtp_engine_srtp_is_registered, the random
byte source res_srtp get_random (none models a negative return), the
base64 codec of ast_base64encode and ast_base64decode, and the policy
activation boundary of sdp_crypto_activate (suite value, local key and
remote key; false models a failed activation). -/
structure Env where
  srtp_registered : Bool
  get_random : Option (List Nat)
  b64encode : List Nat → List Char
  b64decode : List Char → List Nat
  activate : SuiteVal → List Nat → List Nat → Bool

/-- The struct sdp_crypto of sdp_crypto.c, lines 48-55, with the two NULL
or allocated string pointers a_crypto and tag as options.  A context
allocated by sdp_crypto_alloc is zero filled, so remote_key starts as 30
zero bytes and suite as the empty string. -/
structure SdpCrypto where
  a_crypto : Option (List Char)
  local_key : List Nat
  tag : Option (List Char)
  local_key64 : List Char
  remote_key : List Nat
  suite : List Char
deriving DecidableEq

/-- Lines 73-111 of sdp_crypto.c, sdp_crypto_setup: fail when no SRTP
engine is registered, fill the local key from the random source, cache its
base64 encoding, then decode that encoding back (at most 30 bytes) and
fail unless the decoded length is exactly 30 and the decoded bytes equal
the local key.  Allocation failure is out of scope of the model. -/
def sdp_crypto_setup (env : Env) : Option SdpCrypto :=
  if env.srtp_registered = false then none
  else
    match env.get_random with
    | none => none
    | some key =>
      let key64 := env.b64encode key
      let decoded := (env.b64decode key64).take 30
      if decoded.length ≠ 30 then none
      else if decoded ≠ key then none
      else some { a_crypto := none, local_key := key, tag := none,
                  local_key64 := key64, remote_key := List.replicate 30 0,
                  suite := [] }

/-- The literal tag 1 used at line 360 of sdp_crypto.c when no tag has
been adopted. -/
def tagDefault : List Char := "1".toList

/-- The constant head of the rendered crypto line at line 359. -/
def aCryptoHead : List Char := "a=crypto:".toList

/-- The inline marker of the rendered crypto line at line 359. -/
def inlineHead : List Char := " inline:".toList

/-- The trailing carriage return and line feed of the rendered line. -/
def crlfChars : List Char := "\r\n".toList

/-- Lines 347-368 of sdp_crypto.c, sdp_crypto_offer: default the suite to
AES_CM_128_HMAC_SHA1_80 when it is empty, then rebuild a_crypto as
a=crypto:tag suite inline:local_key64 with CRLF, the tag defaulting to 1.
The function performs no engine registration check; allocation failure of
ast_asprintf is out of scope of the model, so the return value is 0. -/
def sdp_crypto_offer (env : Env) (p : SdpCrypto) : Int × SdpCrypto :=
  let suiteD := if p.suite = [] then suiteName80 else p.suite
  let line := aCryptoHead ++ (p.tag.getD tagDefault) ++ ' ' ::
      (suiteD ++ inlineHead ++ p.local_key64 ++ crlfChars)
  (0, { p with suite := suiteD, a_crypto := some line })

/-- Lines 136-190 of sdp_crypto.c, sdp_crypto_activate: re-check engine
registration, then drive the external policy allocation, configuration and
installation calls, modelled by the env.activate boundary applied to the
suite value, the local key of the context and the remote key. -/
def sdp_crypto_activate (env : Env) (p : SdpCrypto) (suite_val : SuiteVal)
    (remote_key : List Nat) : Bool :=
  if env.srtp_registered = false then false
  else env.activate suite_val p.local_key remote_key

/-- The distinct return sites of sdp_crypto_process, lines 192-345 of
sdp_crypto.c.  The C function only returns 0 or -1; the constructors name
the individual return statements, which the C code distinguishes by their
log messages.  nullDeref marks the strchr call on the NULL lifetime
pointer at line 280, which is undefined behavior, not a return. -/
inductive ProcRet
  | engineUnavailable
  | malformedLine
  | unsupportedSessionParams
  | unsupportedSuite
  | noAcceptableOffer
  | keyLengthMismatch
  | okUnchanged
  | activationFailure
  | okNew
  | nullDeref
deriving DecidableEq

/-- Lines 316-344 of sdp_crypto.c: the tail of sdp_crypto_process once the
loop found a candidate key salt: base64 decode it (at most 30 bytes) and
reject any other decoded length; return 0 with no state change when the
decoded key equals the stored remote key; otherwise store the new suite
(truncated to the 63 characters that fit the suite buffer) and remote key,
activate the policy (a failure leaves the new values stored), adopt the
tag when none was adopted yet, and rebuild the offer line. -/
def acceptFound (env : Env) (p : SdpCrypto) (tagS suiteS : List Char)
    (suite_val : SuiteVal) (keySalt : List Char) : ProcRet × SdpCrypto :=
  let decoded := (env.b64decode keySalt).take 30
  if decoded.length ≠ 30 then (ProcRet.keyLengthMismatch, p)
  else if decoded = p.remote_key then (ProcRet.okUnchanged, p)
  else
    let p1 : SdpCrypto :=
      { p with suite := suiteS.take 63, remote_key := decoded }
    if sdp_crypto_activate env p1 suite_val decoded = false then
      (ProcRet.activationFailure, p1)
    else
      let p2 := if p1.tag = none then { p1 with tag := some tagS } else p1
      (ProcRet.okNew, (sdp_crypto_offer env p2).2)

/-- Lines 266-344 of sdp_crypto.c: run the key-parameter loop on the
key-params pointer and dispatch on its outcome. -/
def afterLoop (env : Env) (p : SdpCrypto) (tagS suiteS : List Char)
    (suite_val : SuiteVal) (kp : Option (List Char)) : ProcRet × SdpCrypto :=
  match cryptoLoop kp with
  | LoopOut.nullDeref => (ProcRet.nullDeref, p)
  | LoopOut.noneFound => (ProcRet.noAcceptableOffer, p)
  | LoopOut.found keySalt => acceptFound env p tagS suiteS suite_val keySalt

/-- Lines 192-345 of sdp_crypto.c, sdp_crypto_process: check engine
registration; strsep the attribute at the first colon, then split off tag,
suite, key params and session params on single spaces; reject a missing
tag or suite, any session params, and an unknown suite; then run the
key-parameter loop and the acceptance tail on its outcome. -/
def sdp_crypto_process (env : Env) (p : SdpCrypto) (attr : List Char) :
    ProcRet × SdpCrypto :=
  if env.srtp_registered = false then (ProcRet.engineUnavailable, p)
  else
    let s1 := strsep (some attr) ':'
    let tagT := strsep s1.2 ' '
    let suiteT := strsep tagT.2 ' '
    let keyParamsT := strsep suiteT.2 ' '
    let sessionT := strsep keyParamsT.2 ' '
    match tagT.1, suiteT.1 with
    | some tagS, some suiteS =>
      match sessionT.1 with
      | some _ => (ProcRet.unsupportedSessionParams, p)
      | none =>
        let suite_val? : Option SuiteVal :=
          if suiteS = suiteName80 then some SuiteVal.aesCm128HmacSha1_80
          else if suiteS = suiteName32 then some SuiteVal.aesCm128HmacSha1_32
          else none
        match suite_val? with
        | none => (ProcRet.unsupportedSuite, p)
        | some suite_val =>
          afterLoop env p tagS suiteS suite_val keyParamsT.1
    | _, _ => (ProcRet.malformedLine, p)

/-- A concrete environment with a registered engine, a working random
source and trivial external collaborators, for concrete evaluations. -/
def envTriv : Env :=
  { srtp_registered := true
    get_random := some (List.replicate 30 0)
    b64encode := fun _ => []
    b64decode := fun _ => []
    activate := fun _ _ _ => true }

/-- The environment envTriv with no SRTP engine registered. -/
def envNoEngine : Env :=
  { envTriv with srtp_registered := false }

/-- A concrete environment whose decoder yields a fixed 30-byte key. -/
def envKey7 : Env :=
  { envTriv with b64decode := fun _ => List.replicate 30 7 }

/-- The environment envKey7 with a failing policy activation boundary. -/
def envKey7NoAct : Env :=
  { envKey7 with activate := fun _ _ _ => false }

/-- A concrete environment whose codec round-trips the generated key. -/
def envRT : Env :=
  { envTriv with b64encode := fun _ => ['x']
                 b64decode := fun _ => List.replicate 30 0 }

/-- A freshly allocated zero-filled context, as sdp_crypto_alloc yields. -/
def pEmpty : SdpCrypto :=
  { a_crypto := none, local_key := List.replicate 30 0, tag := none,
    local_key64 := [], remote_key := List.replicate 30 0, suite := [] }

/-- A context whose stored remote key is the 30-byte key of envKey7. -/
def pKey7 : SdpCrypto :=
  { pEmpty with remote_key := List.replicate 30 7 }

/-- The crypto attribute line, from the comment at lines 229-231 of
sdp_crypto.c, that SNOM endpoints send: no lifetime and no MKI field. -/
def snomAttr : List Char :=
  "a=crypto:1 AES_CM_128_HMAC_SHA1_80 inline:H5Yen2gCtRLey/IBGPjHeLLpbnivJDg6IjzvV3vZ".toList

/-- The context produced by sdp_crypto_setup in the environment envRT. -/
def pRT : SdpCrypto :=
  { a_crypto := none, local_key := List.replicate 30 0, tag := none,
    local_key64 := ['x'], remote_key := List.replicate 30 0, suite := [] }

/-- A crypto attribute line naming an unknown suite. -/
def badSuiteAttr : List Char := "a=crypto:1 FOO inline:x".toList

theorem splitAtChar_not_mem {a : List Char} {d : Char} (h : d ∉ a) :
    splitAtChar a d = (a, none) := by
  induction a with
  | nil => rfl
  | cons c cs ih =>
    simp only [List.mem_cons, not_or] at h
    simp only [splitAtChar, if_neg (Ne.symm h.1), ih h.2]

theorem splitAtChar_append {a b : List Char} {d : Char} (h : d ∉ a) :
    splitAtChar (a ++ d :: b) d = (a, some b) := by
  induction a with
  | nil => simp [splitAtChar]
  | cons c cs ih =>
    simp only [List.mem_cons, not_or] at h
    simp [splitAtChar, Ne.symm h.1, ih h.2]

theorem strsep_none {d : Char} : strsep none d = (none, none) := rfl

theorem strsep_no_delim {a : List Char} {d : Char} (h : d ∉ a) :
    strsep (some a) d = (some a, none) := by
  simp [strsep, splitAtChar_not_mem h]

theorem strsep_append {a b : List Char} {d : Char} (h : d ∉ a) :
    strsep (some (a ++ d :: b)) d = (some a, some b) := by
  simp [strsep, splitAtChar_append h]

theorem cryptoLoop_none : cryptoLoop none = LoopOut.noneFound := by
  simp [cryptoLoop]

theorem cryptoLoop_some (s : List Char) :
    cryptoLoop (some s) =
      match processEntry (splitAtChar s ';').1 with
      | EntryOut.nullDeref => LoopOut.nullDeref
      | EntryOut.found ks => LoopOut.found ks
      | EntryOut.skipLifetime _ => cryptoLoop (splitAtChar s ';').2
      | EntryOut.notInline => cryptoLoop (splitAtChar s ';').2 := by
  rw [cryptoLoop]

theorem afterLoop_none (env : Env) (p : SdpCrypto) (tagS suiteS : List Char)
    (sv : SuiteVal) :
    afterLoop env p tagS suiteS sv none = (ProcRet.noAcceptableOffer, p) := by
  simp [afterLoop, cryptoLoop_none]

theorem process_parsed (env : Env) (p : SdpCrypto)
    (pre tagS suiteS kp : List Char)
    (hreg : env.srtp_registered = true) (hpre : ':' ∉ pre)
    (htag : ' ' ∉ tagS) (hsuite : ' ' ∉ suiteS) (hkp : ' ' ∉ kp) :
    sdp_crypto_process env p
        (pre ++ ':' :: (tagS ++ ' ' :: (suiteS ++ ' ' :: kp)))
      = if suiteS = suiteName80 then
          afterLoop env p tagS suiteS SuiteVal.aesCm128HmacSha1_80 (some kp)
        else if suiteS = suiteName32 then
          afterLoop env p tagS suiteS SuiteVal.aesCm128HmacSha1_32 (some kp)
        else (ProcRet.unsupportedSuite, p) := by
  simp only [sdp_crypto_process, hreg, Bool.true_eq_false, if_false,
    strsep_append hpre, strsep_append htag, strsep_append hsuite,
    strsep_no_delim hkp, strsep_none]
  by_cases h80 : suiteS = suiteName80
  · simp [h80]
  · by_cases h32 : suiteS = suiteName32
    · simp [h80, h32, show suiteName32 ≠ suiteName80 from by decide]
    · simp [h80, h32]

theorem process_parsed2 (env : Env) (p : SdpCrypto)
    (pre tagS suiteS : List Char)
    (hreg : env.srtp_registered = true) (hpre : ':' ∉ pre)
    (htag : ' ' ∉ tagS) (hsuite : ' ' ∉ suiteS) :
    sdp_crypto_process env p (pre ++ ':' :: (tagS ++ ' ' :: suiteS))
      = if suiteS = suiteName80 then
          afterLoop env p tagS suiteS SuiteVal.aesCm128HmacSha1_80 none
        else if suiteS = suiteName32 then
          afterLoop env p tagS suiteS SuiteVal.aesCm128HmacSha1_32 none
        else (ProcRet.unsupportedSuite, p) := by
  simp only [sdp_crypto_process, hreg, Bool.true_eq_false, if_false,
    strsep_append hpre, strsep_append htag, strsep_no_delim hsuite,
    strsep_none]
  by_cases h80 : suiteS = suiteName80
  · simp [h80]
  · by_cases h32 : suiteS = suiteName32
    · simp [h80, h32, show suiteName32 ≠ suiteName80 from by decide]
    · simp [h80, h32]

theorem sdp_crypto_setup_some_inv (env : Env) (p : SdpCrypto)
    (h : sdp_crypto_setup env = some p) :
    ∃ key, env.get_random = some key ∧
      p = { a_crypto := none, local_key := key, tag := none,
            local_key64 := env.b64encode key,
            remote_key := List.replicate 30 0, suite := [] } ∧
      ((env.b64decode (env.b64encode key)).take 30).length = 30 ∧
      (env.b64decode (env.b64encode key)).take 30 = key := by
  unfold sdp_crypto_setup at h
  split at h
  · simp at h
  · split at h
    · simp at h
    · rename_i key hkey
      dsimp only at h
      split at h
      · simp at h
      · split at h
        · simp at h
        · rename_i hlen hne
          exact ⟨key, hkey, (Option.some.injEq _ _).mp h |>.symm,
            not_ne_iff.mp hlen, not_ne_iff.mp hne⟩

theorem process_state_cases (env : Env) (p : SdpCrypto) (attr : List Char) :
    (sdp_crypto_process env p attr).2 = p ∨
    (sdp_crypto_process env p attr).1 = ProcRet.activationFailure ∨
    (sdp_crypto_process env p attr).1 = ProcRet.okNew := by
  unfold sdp_crypto_process
  split
  · left; rfl
  · dsimp only
    split
    · split
      · left; rfl
      · split
        · left; rfl
        · unfold afterLoop
          split
          · left; rfl
          · left; rfl
          · unfold acceptFound
            dsimp only
            split
            · left; rfl
            · split
              · left; rfl
              · split
                · right; left; rfl
                · right; right; rfl
    · left; rfl

/-- C1: the spec claims that an answer line whose inline info has no
pipe-separated lifetime or MKI field, such as the SNOM line quoted in the
code's own comment, is accepted and proceeds to policy activation.  On
such a line the code instead reaches strchr with the NULL lifetime pointer
at line 280 of sdp_crypto.c: a null dereference, not acceptance. -/
theorem c1_snom_inline_line_null_deref :
    sdp_crypto_process envTriv pKey7 snomAttr = (ProcRet.nullDeref, pKey7) := by
  have hattr : snomAttr = "a=crypto".toList ++ ':' :: ("1".toList ++ ' ' ::
      (suiteName80 ++ ' ' ::
        ("inline:H5Yen2gCtRLey/IBGPjHeLLpbnivJDg6IjzvV3vZ".toList))) := by
    decide
  rw [hattr,
    process_parsed envTriv pKey7 _ _ _ _ rfl (by decide) (by decide) (by decide)
      (by decide),
    if_pos rfl]
  simp only [afterLoop]
  rw [cryptoLoop_some]
  decide

/-- C2: the claim states that a lifetime of the form 2 caret N is computed
as 2 raised to the power N.  The code at line 294 of sdp_crypto.c instead
evaluates the C expression 2 ^ atoi(N), whose caret is bitwise XOR: for
the lifetime field 2^20 of the RFC 4568 example line the computed value is
2 XOR 20 = 22, not 2 to the 20th = 1048576. -/
theorem c2_lifetime_caret_is_xor :
    lifetimeValue ("2^20".toList) = 22 ∧
    processEntry
        ("inline:PS1uQCVeeCFCanVmcjkpPywjNWhcYD0mXXtxaVBR|2^20|1:32".toList)
      = EntryOut.skipLifetime 22 ∧
    (22 : Nat) ≠ 2 ^ 20 := by
  refine ⟨by decide, by decide, by decide⟩

/-- C3: an answer line whose only key-params entry carries a lifetime
field (the second pipe-separated field has no colon, here with a third
MKI field present) is skipped by the parser, and with no other candidate
the call fails at the no-acceptable-offer return, leaving the context
unchanged. -/
theorem c3_lifetime_entry_rejected
    (env : Env) (p : SdpCrypto) (tagS ks lt : List Char)
    (hreg : env.srtp_registered = true)
    (htag : ' ' ∉ tagS)
    (hks1 : ' ' ∉ ks) (hks2 : ';' ∉ ks) (hks3 : '|' ∉ ks)
    (hlt1 : ' ' ∉ lt) (hlt2 : ';' ∉ lt) (hlt3 : '|' ∉ lt) (hlt4 : ':' ∉ lt) :
    sdp_crypto_process env p
      ("a=crypto".toList ++ ':' :: (tagS ++ ' ' :: (suiteName80 ++ ' ' ::
        ("inline".toList ++ ':' ::
          (ks ++ '|' :: (lt ++ '|' :: "1:32".toList))))))
      = (ProcRet.noAcceptableOffer, p) := by
  have hkp : ' ' ∉ ("inline".toList ++ ':' ::
      (ks ++ '|' :: (lt ++ '|' :: "1:32".toList))) := by
    simp [List.mem_append, List.mem_cons, hks1, hlt1]
  rw [process_parsed env p _ tagS suiteName80 _ hreg (by decide) htag
    (by decide) hkp, if_pos rfl]
  have hsc : (';' : Char) ∉ ("inline".toList ++ ':' ::
      (ks ++ '|' :: (lt ++ '|' :: "1:32".toList))) := by
    simp [List.mem_append, List.mem_cons, hks2, hlt2]
  simp only [afterLoop]
  rw [cryptoLoop_some, splitAtChar_not_mem hsc]
  have hpe : processEntry ("inline".toList ++ ':' ::
      (ks ++ '|' :: (lt ++ '|' :: "1:32".toList)))
      = EntryOut.skipLifetime (lifetimeValue lt) := by
    have hI : (';' : Char) ∉ (ks ++ '|' :: (lt ++ '|' :: "1:32".toList)) := by
      simp [List.mem_append, List.mem_cons, hks2, hlt2]
    rw [processEntry]
    simp only [strsep_append (show (':' : Char) ∉ "inline".toList
        from by decide),
      strsep_no_delim hI, splitAtChar_append hks3, splitAtChar_append hlt3]
    simp [hlt4]
  rw [hpe]
  simp [cryptoLoop_none]

/-- Closed instance of c3_lifetime_entry_rejected at the RFC 4568 example
key and lifetime 2^20, discharging every hypothesis. -/
theorem c3_lifetime_entry_rejected_witness :
    sdp_crypto_process envTriv pEmpty
      ("a=crypto".toList ++ ':' :: ("1".toList ++ ' ' :: (suiteName80 ++ ' ' ::
        ("inline".toList ++ ':' ::
          ("PS1uQCVeeCFCanVmcjkpPywjNWhcYD0mXXtxaVBR".toList ++ '|' ::
            ("2^20".toList ++ '|' :: "1:32".toList))))))
      = (ProcRet.noAcceptableOffer, pEmpty) :=
  c3_lifetime_entry_rejected envTriv pEmpty _ _ _ rfl (by decide) (by decide)
    (by decide) (by decide) (by decide) (by decide) (by decide) (by decide)

/-- C4: sdp_crypto_setup returns a context only when decoding the cached
text encoding of the generated 30-byte local key gives exactly 30 bytes
equal byte for byte to the local key, and fails, returning no context,
whenever the decode length or the decoded bytes mismatch. -/
theorem c4_setup_roundtrip_selftest :
    (∀ env : Env, ∀ p : SdpCrypto, sdp_crypto_setup env = some p →
      p.local_key64 = env.b64encode p.local_key ∧
      ((env.b64decode p.local_key64).take 30).length = 30 ∧
      (env.b64decode p.local_key64).take 30 = p.local_key) ∧
    (∀ env : Env, ∀ key : List Nat, env.get_random = some key →
      (((env.b64decode (env.b64encode key)).take 30).length ≠ 30 ∨
        (env.b64decode (env.b64encode key)).take 30 ≠ key) →
      sdp_crypto_setup env = none) := by
  constructor
  · intro env p h
    obtain ⟨key, hkey, hp, hlen, heq⟩ := sdp_crypto_setup_some_inv env p h
    subst hp
    exact ⟨rfl, hlen, heq⟩
  · intro env key hkey hbad
    unfold sdp_crypto_setup
    split
    · rfl
    · rw [hkey]
      dsimp only
      rcases hbad with hbad | hbad
      · rw [if_pos hbad]
      · by_cases hl :
          ((env.b64decode (env.b64encode key)).take 30).length ≠ 30
        · rw [if_pos hl]
        · rw [if_neg hl, if_pos hbad]

/-- Closed instance of c4_setup_roundtrip_selftest: the round-tripping
codec of envRT yields the context pRT, and the envTriv codec, which
decodes everything to the empty byte string, makes setup fail. -/
theorem c4_setup_roundtrip_selftest_witness :
    (pRT.local_key64 = envRT.b64encode pRT.local_key ∧
      ((envRT.b64decode pRT.local_key64).take 30).length = 30 ∧
      (envRT.b64decode pRT.local_key64).take 30 = pRT.local_key) ∧
    sdp_crypto_setup envTriv = none :=
  ⟨c4_setup_roundtrip_selftest.1 envRT pRT (by decide),
   c4_setup_roundtrip_selftest.2 envTriv (List.replicate 30 0) rfl
     (Or.inl (by decide))⟩

/-- C5: an answer whose decoded 30-byte remote key equals the stored
remote key returns success with the context completely unchanged, even
when the line names a different suite or tag than the stored ones. -/
theorem c5_same_key_no_side_effects
    (env : Env) (p : SdpCrypto) (tagS suiteS kp ks : List Char)
    (hreg : env.srtp_registered = true)
    (htag : ' ' ∉ tagS)
    (hsuite : suiteS = suiteName80 ∨ suiteS = suiteName32)
    (hkp : ' ' ∉ kp)
    (hloop : cryptoLoop (some kp) = LoopOut.found ks)
    (hlen : ((env.b64decode ks).take 30).length = 30)
    (heq : (env.b64decode ks).take 30 = p.remote_key) :
    sdp_crypto_process env p
      ("a=crypto".toList ++ ':' :: (tagS ++ ' ' :: (suiteS ++ ' ' :: kp)))
      = (ProcRet.okUnchanged, p) := by
  have hs : ' ' ∉ suiteS := by
    rcases hsuite with h | h <;> subst h <;> decide
  rw [process_parsed env p _ tagS suiteS kp hreg (by decide) htag hs hkp]
  have h30 : ¬(((env.b64decode ks).take 30).length ≠ 30) := by simp [hlen]
  rcases hsuite with h | h <;> subst h
  · rw [if_pos rfl]
    simp only [afterLoop, hloop, acceptFound]
    rw [if_neg h30, if_pos heq]
  · rw [if_neg (by decide), if_pos rfl]
    simp only [afterLoop, hloop, acceptFound]
    rw [if_neg h30, if_pos heq]

/-- Closed instance of c5_same_key_no_side_effects: the stored remote key
of pKey7 equals the key decoded by envKey7, so the re-answer is a no-op. -/
theorem c5_same_key_no_side_effects_witness :
    sdp_crypto_process envKey7 pKey7
      ("a=crypto".toList ++ ':' :: ("1".toList ++ ' ' :: (suiteName80 ++ ' ' ::
        "inline:K|1:32".toList)))
      = (ProcRet.okUnchanged, pKey7) :=
  c5_same_key_no_side_effects envKey7 pKey7 _ _ _ ("K".toList) rfl (by decide)
    (Or.inl rfl) (by decide) (by rw [cryptoLoop_some]; decide) (by decide)
    (by decide)

/-- C6: when the answer carries a new remote key, the suite and remote key
are stored before policy activation is attempted, and a failed activation
returns failure with the new key and suite still stored. -/
theorem c6_no_rollback_on_activation_failure
    (env : Env) (p : SdpCrypto) (tagS suiteS kp ks : List Char)
    (hreg : env.srtp_registered = true)
    (htag : ' ' ∉ tagS)
    (hsuite : suiteS = suiteName80 ∨ suiteS = suiteName32)
    (hkp : ' ' ∉ kp)
    (hloop : cryptoLoop (some kp) = LoopOut.found ks)
    (hlen : ((env.b64decode ks).take 30).length = 30)
    (hne : (env.b64decode ks).take 30 ≠ p.remote_key)
    (hact : env.activate
        (if suiteS = suiteName80 then SuiteVal.aesCm128HmacSha1_80
         else SuiteVal.aesCm128HmacSha1_32)
        p.local_key ((env.b64decode ks).take 30) = false) :
    sdp_crypto_process env p
      ("a=crypto".toList ++ ':' :: (tagS ++ ' ' :: (suiteS ++ ' ' :: kp)))
      = (ProcRet.activationFailure,
         { p with suite := suiteS.take 63,
                  remote_key := (env.b64decode ks).take 30 }) := by
  have hs : ' ' ∉ suiteS := by
    rcases hsuite with h | h <;> subst h <;> decide
  rw [process_parsed env p _ tagS suiteS kp hreg (by decide) htag hs hkp]
  have h30 : ¬(((env.b64decode ks).take 30).length ≠ 30) := by simp [hlen]
  rcases hsuite with h | h <;> subst h
  · rw [if_pos rfl] at hact ⊢
    simp only [afterLoop, hloop, acceptFound]
    rw [if_neg h30, if_neg hne]
    simp [sdp_crypto_activate, hreg, hact]
  · rw [if_neg (by decide)] at hact
    rw [if_neg (by decide), if_pos rfl]
    simp only [afterLoop, hloop, acceptFound]
    rw [if_neg h30, if_neg hne]
    simp [sdp_crypto_activate, hreg, hact]

/-- Closed instance of c6_no_rollback_on_activation_failure: envKey7NoAct
decodes a new 30-byte key for the zero-filled context pEmpty and its
activation boundary fails, leaving the new key and suite stored. -/
theorem c6_no_rollback_on_activation_failure_witness :
    sdp_crypto_process envKey7NoAct pEmpty
      ("a=crypto".toList ++ ':' :: ("1".toList ++ ' ' :: (suiteName80 ++ ' ' ::
        "inline:K|1:32".toList)))
      = (ProcRet.activationFailure,
         { pEmpty with suite := suiteName80.take 63,
                       remote_key :=
             (envKey7NoAct.b64decode ("K".toList)).take 30 }) :=
  c6_no_rollback_on_activation_failure envKey7NoAct pEmpty _ _ _ ("K".toList)
    rfl (by decide) (Or.inl rfl) (by decide)
    (by rw [cryptoLoop_some]; decide) (by decide) (by decide) (by decide)

/-- C7: sdp_crypto_offer always returns 0 and rebuilds the line exactly as
a=crypto:tag suite inline:local_key64 with trailing CRLF, the tag
defaulting to the literal 1 and the suite defaulting to
AES_CM_128_HMAC_SHA1_80 when never negotiated; a second call with no
intervening state change is byte-identical; and for a context produced by
sdp_crypto_setup the inline part is the base64 encoding of the local
key. -/
theorem c7_offer_line_form :
    (∀ env : Env, ∀ p : SdpCrypto,
      sdp_crypto_offer env p
        = (0, { p with
                suite := if p.suite = [] then suiteName80 else p.suite,
                a_crypto := some (aCryptoHead ++ p.tag.getD tagDefault ++
                  ' ' :: ((if p.suite = [] then suiteName80 else p.suite) ++
                    inlineHead ++ p.local_key64 ++ crlfChars)) })) ∧
    (∀ env : Env, ∀ p : SdpCrypto,
      sdp_crypto_offer env ((sdp_crypto_offer env p).2)
        = sdp_crypto_offer env p) ∧
    (∀ env : Env, ∀ q : SdpCrypto, sdp_crypto_setup env = some q →
      q.local_key64 = env.b64encode q.local_key) := by
  refine ⟨fun env p => rfl, fun env p => ?_, fun env q h => ?_⟩
  · by_cases hs : p.suite = []
    · simp [sdp_crypto_offer, hs, show suiteName80 ≠ [] from by decide]
    · simp [sdp_crypto_offer, hs]
  · obtain ⟨key, hkey, hq, hlen, heq⟩ := sdp_crypto_setup_some_inv env q h
    subst hq
    rfl

/-- Closed instance of c7_offer_line_form: idempotence at a concrete
context and the inline content of the setup-produced context pRT. -/
theorem c7_offer_line_form_witness :
    sdp_crypto_offer envTriv ((sdp_crypto_offer envTriv pEmpty).2)
      = sdp_crypto_offer envTriv pEmpty ∧
    pRT.local_key64 = envRT.b64encode pRT.local_key :=
  ⟨c7_offer_line_form.2.1 envTriv pEmpty,
   c7_offer_line_form.2.2 envRT pRT (by decide)⟩

/-- C8 counterexample: the claim says the suite-policy path of
sdp_crypto_offer checks the engine registration flag at its start and
fails fast when no engine is registered.  With the unregistered
environment envNoEngine the function instead succeeds, returning 0 and
building the offer line. -/
theorem c8_counterexample_offer_skips_engine_check :
    envNoEngine.srtp_registered = false ∧
    (sdp_crypto_offer envNoEngine pEmpty).1 = 0 ∧
    (sdp_crypto_offer envNoEngine pEmpty).2.a_crypto ≠ none := by
  refine ⟨rfl, rfl, by decide⟩

/-- C8 amended: sdp_crypto_setup and sdp_crypto_process check the
process-wide engine registration flag at their start and fail fast,
before any other work or state change, when no engine is registered;
sdp_crypto_offer performs no such check. -/
theorem c8_amended_engine_check_at_entry
    (env : Env) (p : SdpCrypto) (attr : List Char)
    (h : env.srtp_registered = false) :
    sdp_crypto_setup env = none ∧
    sdp_crypto_process env p attr = (ProcRet.engineUnavailable, p) := by
  constructor
  · unfold sdp_crypto_setup
    rw [if_pos h]
  · unfold sdp_crypto_process
    rw [if_pos h]

/-- Closed instance of c8_amended_engine_check_at_entry in the
unregistered environment envNoEngine. -/
theorem c8_amended_engine_check_at_entry_witness :
    sdp_crypto_setup envNoEngine = none ∧
    sdp_crypto_process envNoEngine pEmpty snomAttr
      = (ProcRet.engineUnavailable, pEmpty) :=
  c8_amended_engine_check_at_entry envNoEngine pEmpty snomAttr rfl

/-- C9: every rejection of an answer at the malformed-line, session
params, unsupported-suite, no-acceptable-offer or key-length return
leaves the whole context, remote key, suite, tag and offer line, exactly
as it was before the call. -/
theorem c9_rejection_preserves_context
    (env : Env) (p : SdpCrypto) (attr : List Char)
    (h : (sdp_crypto_process env p attr).1 = ProcRet.malformedLine ∨
         (sdp_crypto_process env p attr).1
           = ProcRet.unsupportedSessionParams ∨
         (sdp_crypto_process env p attr).1 = ProcRet.unsupportedSuite ∨
         (sdp_crypto_process env p attr).1 = ProcRet.noAcceptableOffer ∨
         (sdp_crypto_process env p attr).1 = ProcRet.keyLengthMismatch) :
    (sdp_crypto_process env p attr).2 = p := by
  rcases process_state_cases env p attr with hq | hf | hf
  · exact hq
  · rcases h with h | h | h | h | h <;>
      exact absurd (h.symm.trans hf) (by decide)
  · rcases h with h | h | h | h | h <;>
      exact absurd (h.symm.trans hf) (by decide)

/-- Closed instance of c9_rejection_preserves_context at a line naming an
unknown suite. -/
theorem c9_rejection_preserves_context_witness :
    (sdp_crypto_process envTriv pEmpty badSuiteAttr).2 = pEmpty :=
  c9_rejection_preserves_context envTriv pEmpty badSuiteAttr
    (Or.inr (Or.inr (Or.inl (by decide))))

/-- C10: an answer line of exactly two tokens, a tag and a supported
suite, passes the token-count and suite checks, iterates over zero
key-parameter candidates and fails at the no-acceptable-offer return with
the context unchanged, rather than failing as a malformed line. -/
theorem c10_missing_key_params_no_acceptable_offer
    (env : Env) (p : SdpCrypto) (tagS suiteS : List Char)
    (hreg : env.srtp_registered = true)
    (htag : ' ' ∉ tagS)
    (hsuite : suiteS = suiteName80 ∨ suiteS = suiteName32) :
    sdp_crypto_process env p
      ("a=crypto".toList ++ ':' :: (tagS ++ ' ' :: suiteS))
      = (ProcRet.noAcceptableOffer, p) := by
  have hs : ' ' ∉ suiteS := by
    rcases hsuite with h | h <;> subst h <;> decide
  rw [process_parsed2 env p _ tagS suiteS hreg (by decide) htag hs]
  rcases hsuite with h | h <;> subst h
  · rw [if_pos rfl, afterLoop_none]
  · rw [if_neg (by decide), if_pos rfl, afterLoop_none]

/-- Closed instance of c10_missing_key_params_no_acceptable_offer with
tag 7 and the SHA1-32 suite. -/
theorem c10_missing_key_params_no_acceptable_offer_witness :
    sdp_crypto_process envTriv pEmpty
      ("a=crypto".toList ++ ':' :: ("7".toList ++ ' ' :: suiteName32))
      = (ProcRet.noAcceptableOffer, pEmpty) :=
  c10_missing_key_params_no_acceptable_offer envTriv pEmpty _ _ rfl
    (by decide) (Or.inr rfl)

end SdpCryptoModel
